import Mathlib

/-!
Verification development for the wiki_analytics hourly analytics pipeline
(src/hourly_analytics.py).  The Python source is shallowly embedded: the
in-memory table operations (blacklist mask, groupby, sort, truncation,
csv rendering) become pure functions on lists of records, the filesystem
and network effects of the per-hour driver become explicit state passing
over an association list of files plus a network-call counter, and raised
exceptions become `Except` values.
-/

namespace WikiAnalytics

/-- A page-view record as pandas `read_table` materialises it: the default
integer dataframe index (the row's 0-based position in the resource file)
together with the `domain`, `title` and `count` columns; the fourth
`response_time` column is dropped by `usecols` at read time. -/
structure Record where
  idx : Nat
  domain : String
  title : String
  count : Int
deriving DecidableEq

/-- pandas `read_table` assigns the default integer index `0, 1, 2, ...`
to the parsed rows, in file order. -/
def records_of_rows (rows : List (String × String × Int)) : List Record :=
  rows.enum.map fun p => ⟨p.1, p.2.1, p.2.2.1, p.2.2.2⟩

/-- The mask applied by `blacklist`:
`table[["domain","title"]].isin(blacklist.to_dict(outtype='list')).all(axis=1)`.
`DataFrame.isin` with a dict argument tests every column independently
against that column's list, so the mask is true exactly when the record's
domain occurs among the blacklist domains AND its title occurs among the
blacklist titles — possibly taken from two different blacklist rows.
`table[~blacklist_mask]` keeps the remaining rows in order. -/
def blacklistFilter (bl : List (String × String)) (table : List Record) : List Record :=
  let doms := bl.map Prod.fst
  let titles := bl.map Prod.snd
  table.filter fun r => !(doms.contains r.domain && titles.contains r.title)

/-- Modelled from the spec (refinement target for C1): exact-match pair
blacklisting — a record is excluded iff its `(domain, title)` pair equals
some blacklist entry's pair. -/
def pair_blacklist_filter (bl : List (String × String)) (table : List Record) : List Record :=
  table.filter fun r => !(bl.contains (r.domain, r.title))

/-- Comparison used by the per-bucket sort: ascending on the count column. -/
def countLe (a b : Record) : Prop := a.count ≤ b.count

instance : DecidableRel countLe := fun a b => Int.decLe a.count b.count

instance : IsTotal Record countLe := ⟨fun a b => Int.le_total a.count b.count⟩

instance : IsTrans Record countLe := ⟨fun _ _ _ h1 h2 => le_trans h1 h2⟩

/-- `group.sort(("count"), ascending=False, inplace=True)`: pandas computes
an ascending argsort of the count column and, because `ascending=False`,
reverses the resulting indexer.  We model this as a stable ascending
insertion sort by count followed by a reversal.  Only the count column
participates; titles play no role in the order. -/
def sortCountDesc (l : List Record) : List Record :=
  (l.insertionSort countLe).reverse

/-- `split_by_domain` / `dataframe.groupby(["domain"])`: one bucket per
distinct domain value, group keys sorted ascending (the pandas groupby
default), the rows of a bucket kept in dataframe order. -/
def split_by_domain (table : List Record) : List (String × List Record) :=
  (((table.map Record.domain).dedup).insertionSort (· ≤ ·)).map
    fun d => (d, table.filter fun r => r.domain == d)

/-- The per-bucket work of the write loop in `hourly_ranking`: sort each
bucket by count descending and keep its first 25 rows (`group[:25]`). -/
def rank_groups (table : List Record) : List (String × List Record) :=
  (split_by_domain table).map fun p => (p.1, (sortCountDesc p.2).take 25)

/-- Blacklist filtering followed by grouping, sorting and truncation — the
in-memory pipeline of `hourly_ranking` between parsing and writing. -/
def rank_table (bl : List (String × String)) (table : List Record) : List (String × List Record) :=
  rank_groups (blacklistFilter bl table)

/-- One row as `group[:25].to_csv(output_fd, sep=" ", header=False)` prints
it: the dataframe index (the row's original position in the parsed file),
then domain, title and count, space separated. -/
def row_line (r : Record) : String :=
  toString r.idx ++ " " ++ r.domain ++ " " ++ r.title ++ " " ++ toString r.count

/-- The Plain layout (`fancy_formatting` false): the hand-written header
line, then every bucket's ranked rows, each carrying its dataframe index. -/
def plain_output (table : List Record) : List String :=
  "Original_index Domain Title Count" ::
    (rank_groups table).flatMap fun p => p.2.map row_line

/-- Modelled from the spec (refinement target for C9): the Plain layout as
section 4.5 words it, each row annotated with its 0-based rank position
inside its own domain bucket instead of the dataframe index. -/
def plain_output_rank (table : List Record) : List String :=
  "Original_index Domain Title Count" ::
    (rank_groups table).flatMap fun p =>
      p.2.enum.map fun q =>
        toString q.1 ++ " " ++ q.2.domain ++ " " ++ q.2.title ++ " " ++ toString q.2.count

/-- The Fancy layout (`fancy_formatting` true): per bucket a `Domain :`
line, a `---` separator, the pandas column header (`to_csv` is called with
`header=True` here), the ranked rows, then the footer and a blank line. -/
def fancy_output (table : List Record) : List String :=
  (rank_groups table).flatMap fun p =>
    ("Domain : " ++ p.1) :: "---" :: "domain title count" ::
      (p.2.map row_line ++ ["----------", ""])

/-- An hour-granularity timestamp as the naming functions consume it:
`strftime` only reads the year, month, day and hour fields. -/
structure HourlyWindow where
  year : Nat
  month : Nat
  day : Nat
  hour : Nat
deriving DecidableEq

/-- A decimal digit character, as `strftime` zero-padding produces it. -/
def digit (n : Nat) : Char := Char.ofNat (48 + n)

/-- A zero-padded two-digit `strftime` field (`%m`, `%d`, `%H`). -/
def pad2 (n : Nat) : String := String.mk [digit (n / 10), digit (n % 10)]

/-- `%Y`: the year, zero-padded to four digits (the behaviour documented
for Python's `strftime`). -/
def pad4 (n : Nat) : String := pad2 (n / 100) ++ pad2 (n % 100)

/-- `strftime("%Y%m%d-%H0000")`, the common core of the resource file name
and of the output file name. -/
def window_core (w : HourlyWindow) : String :=
  pad4 w.year ++ pad2 w.month ++ pad2 w.day ++ "-" ++ pad2 w.hour ++ "0000"

/-- `get_resource_name`: `target_datetime.strftime("pagecounts-%Y%m%d-%H0000.gz")`. -/
def get_resource_name (w : HourlyWindow) : String :=
  "pagecounts-" ++ window_core w ++ ".gz"

/-- The output file name built at line 100 of the source:
`"ranking-" + floor_date.strftime("%Y%m%d-%H0000") + ".csv"`. -/
def output_file_name (w : HourlyWindow) : String :=
  "ranking-" ++ window_core w ++ ".csv"

/-- Modelled from the spec (the source has no parsing direction): consume
an expected literal character sequence from the front of a name. -/
def dropExact : List Char → List Char → Option (List Char)
  | [], cs => some cs
  | _ :: _, [] => none
  | p :: ps, c :: cs => if c = p then dropExact ps cs else none

/-- Numeric value of a decimal digit character. -/
def digitVal (c : Char) : Nat := c.toNat - 48

/-- Modelled from the spec: read a zero-padded two-digit field. -/
def read2 : List Char → Option (Nat × List Char)
  | c1 :: c2 :: rest =>
      if c1.isDigit ∧ c2.isDigit then some (digitVal c1 * 10 + digitVal c2, rest) else none
  | _ => none

/-- Modelled from the spec: read a zero-padded four-digit field. -/
def read4 (cs : List Char) : Option (Nat × List Char) := do
  let a ← read2 cs
  let b ← read2 a.2
  some (a.1 * 100 + b.1, b.2)

/-- Modelled from the spec: parse a name of shape
`<pre><YYYY><MM><DD>-<HH>0000<suf>` back into its hourly window. -/
def parse_window_name (pre suf : String) (s : String) : Option HourlyWindow := do
  let cs ← dropExact pre.data s.data
  let y ← read4 cs
  let mo ← read2 y.2
  let da ← read2 mo.2
  let cs2 ← dropExact ['-'] da.2
  let h ← read2 cs2
  let cs3 ← dropExact ("0000" ++ suf).data h.2
  if cs3.isEmpty then some ⟨y.1, mo.1, da.1, h.1⟩ else none

/-- Modelled from the spec: recover the window from a resource file name. -/
def parse_resource_name (s : String) : Option HourlyWindow :=
  parse_window_name "pagecounts-" ".gz" s

/-- Modelled from the spec: recover the window from an output file name. -/
def parse_output_name (s : String) : Option HourlyWindow :=
  parse_window_name "ranking-" ".csv" s

/-- Contents of a file in the embedded filesystem: a four-column resource
table (already projected to the three kept columns), a two-column
blacklist table, written-out text lines, or bytes that no pandas reader
decodes (also the debris `open(file_path, "wb")` leaves behind when
`requests.get` raises mid-download). -/
inductive Content where
  | table3 : List (String × String × Int) → Content
  | table2 : List (String × String) → Content
  | text : List String → Content
  | corrupt : Content
deriving DecidableEq

/-- The configuration surface imported from `config`, restricted to the
fields the pipeline reads (`local_timezone` is absorbed into the abstract
formatting functions below, and modelled separately for C10). -/
structure Config where
  resource_dir : String
  output_dir : String
  blacklist_origin : String
  blacklist_path : String
  fancy_formatting : Bool
deriving DecidableEq

/-- Filesystem plus a counter of network calls (`requests.get` invocations). -/
structure PState where
  fs : List (String × Content)
  netCalls : Nat
deriving DecidableEq

/-- Which branch of the per-hour body ran: the output file already existed
(the code logs "already present" and does nothing) or it was written. -/
inductive Outcome where
  | alreadyExists : Outcome
  | written : Outcome
deriving DecidableEq

/-- Raised exceptions: a `requests`/IO failure while downloading, an
uncaught pandas failure naming the offending path, or the `TypeError`
raised when the blacklist mask is built over Python `None`. -/
inductive Err where
  | downloadError : String → Err
  | pandasError : String → Err
  | typeError : Err
deriving DecidableEq

/-- `download_file(url, file_path)`: if the file already exists it only
logs; otherwise it opens the file for writing (creating it) and streams
`requests.get(url)` into it.  A network failure therefore both counts a
network call and leaves a corrupt file behind before the exception
propagates. -/
def download_file (net : String → Option Content) (url file_path : String) (st : PState) :
    PState × Except Err Unit :=
  if (st.fs.lookup file_path).isSome then
    (st, Except.ok ())
  else
    match net url with
    | some c => (⟨(file_path, c) :: st.fs, st.netCalls + 1⟩, Except.ok ())
    | none =>
        (⟨(file_path, Content.corrupt) :: st.fs, st.netCalls + 1⟩,
         Except.error (Err.downloadError url))

/-- The archive base URL hard-coded in `get_resource`. -/
def archive_base : String := "http://dumps.wikimedia.org/other/pagecounts-all-sites/"

/-- The local resource path `resource_dir + "/" + get_resource_name(floor_date)`;
`core` stands for `floor_date.strftime("%Y%m%d-%H0000")`. -/
def res_path (cfg : Config) (core : String) : String :=
  cfg.resource_dir ++ "/" ++ ("pagecounts-" ++ core ++ ".gz")

/-- The output path `output_dir + "/ranking-" + floor_date.strftime("%Y%m%d-%H0000") + ".csv"`. -/
def out_path (cfg : Config) (core : String) : String :=
  cfg.output_dir ++ "/ranking-" ++ core ++ ".csv"

/-- `get_resource(target_date)`: computes the resource path and the archive
URL for the window and delegates to `download_file`.  `urlpart` stands for
`target_date.strftime("%Y/%Y-%m/pagecounts-%Y%m%d-%H0000.gz")`. -/
def get_resource (cfg : Config) (net : String → Option Content) (core urlpart : String)
    (st : PState) : PState × Except Err Unit :=
  download_file net (archive_base ++ urlpart) (res_path cfg core) st

/-- `get_table_from_resource(file_path)`: reads the file with
`pd.read_table` inside a bare `try/except` that logs and falls through, so
a missing or undecodable file yields Python `None` — no error value
reaches the caller. -/
def get_table_from_resource (st : PState) (file_path : String) : Option (List Record) :=
  match st.fs.lookup file_path with
  | some (Content.table3 rows) => some (records_of_rows rows)
  | _ => none

/-- `blacklist(table)`: downloads the blacklist file (same caching
`download_file`), reads it with `pd.read_table` (no handler — a failure
raises), then builds the isin mask over `table` and filters.  When
`table` is Python `None` (a swallowed parse failure upstream), the
subscript `table[["domain","title"]]` raises `TypeError`. -/
def blacklist (cfg : Config) (net : String → Option Content)
    (table : Option (List Record)) (st : PState) : PState × Except Err (List Record) :=
  match download_file net cfg.blacklist_origin cfg.blacklist_path st with
  | (st1, Except.error e) => (st1, Except.error e)
  | (st1, Except.ok _) =>
    match st1.fs.lookup cfg.blacklist_path with
    | some (Content.table2 bl) =>
      match table with
      | none => (st1, Except.error Err.typeError)
      | some t => (st1, Except.ok (blacklistFilter bl t))
    | _ => (st1, Except.error (Err.pandasError cfg.blacklist_path))

/-- The body of the per-date loop of `hourly_ranking`, for one date.
`fmtCore d` stands for `floor_date.strftime("%Y%m%d-%H0000")` and
`fmtUrl d` for `floor_date.strftime("%Y/%Y-%m/pagecounts-%Y%m%d-%H0000.gz")`
of that date's floored, timezone-adjusted window.  If the output file
already exists the code only logs and moves on; otherwise it fetches,
parses, filters, groups, sorts, truncates and appends the formatted
rows to the freshly created output file. -/
def processHour {D : Type} (cfg : Config) (net : String → Option Content)
    (fmtCore fmtUrl : D → String) (st : PState) (d : D) : PState × Except Err Outcome :=
  if (st.fs.lookup (out_path cfg (fmtCore d))).isSome then
    (st, Except.ok Outcome.alreadyExists)
  else
    match get_resource cfg net (fmtCore d) (fmtUrl d) st with
    | (st1, Except.error e) => (st1, Except.error e)
    | (st1, Except.ok _) =>
      match blacklist cfg net (get_table_from_resource st1 (res_path cfg (fmtCore d))) st1 with
      | (st2, Except.error e) => (st2, Except.error e)
      | (st2, Except.ok tbl) =>
        (⟨(out_path cfg (fmtCore d),
            Content.text (if cfg.fancy_formatting then fancy_output tbl else plain_output tbl))
              :: st2.fs,
          st2.netCalls⟩,
         Except.ok Outcome.written)

/-- The per-date loop of `hourly_ranking`.  The loop body has no exception
handler, so the first raised error propagates out of the loop and the
remaining dates are never processed; the final filesystem state and the
escaped exception (if any) are returned. -/
def hourly_ranking {D : Type} (cfg : Config) (net : String → Option Content)
    (fmtCore fmtUrl : D → String) (st : PState) (dates : List D) : PState × Option Err :=
  match dates with
  | [] => (st, none)
  | d :: rest =>
    match processHour cfg net fmtCore fmtUrl st d with
    | (st1, Except.ok _) => hourly_ranking cfg net fmtCore fmtUrl st1 rest
    | (st1, Except.error e) => (st1, some e)

/-- The date-defaulting at the head of `hourly_ranking`, on a
minutes-since-epoch model of `datetime`:
`if dates is None: dates = [datetime.datetime.now() - datetime.timedelta(hours=2)]`. -/
def default_dates (now : Int) : Option (List Int) → List Int
  | none => [now - 120]
  | some ds => ds

/-- `floor_date = datetime.datetime(date.year, date.month, date.day, date.hour, 0)
- datetime.timedelta(hours=local_timezone)` on the minutes model: the
constructor drops the sub-hour remainder, then whole hours are subtracted. -/
def floor_date (local_timezone : Int) (d : Int) : Int :=
  (d - d % 60) - 60 * local_timezone

/-- The hourly windows the loop iterates over for a given optional date
list: each (defaulted) date, floored and timezone-adjusted. -/
def hourly_windows (local_timezone : Int) (now : Int) (dates : Option (List Int)) : List Int :=
  (default_dates now dates).map (floor_date local_timezone)

/-- Truncation of a minutes-since-epoch instant to its hour boundary. -/
def truncToHour (t : Int) : Int := 60 * (t / 60)

/-- Tie-break clause claimed by C2: whenever two rows of a ranked bucket
have equal counts, the row with the lexicographically smaller title comes
first.  Lexicographic comparison of the raw strings is stated on the
character lists (exactly core `String.lt`). -/
def tieTitleOrdered (l : List Record) : Prop :=
  ∀ i, (hi : i < l.length) → ∀ j, (hj : j < l.length) →
    (l.get ⟨i, hi⟩).count = (l.get ⟨j, hj⟩).count →
    (l.get ⟨i, hi⟩).title.data < (l.get ⟨j, hj⟩).title.data → i < j

instance (l : List Record) : Decidable (tieTitleOrdered l) := by
  unfold tieTitleOrdered
  exact Nat.decidableBallLT _ _

/-- Concrete fixtures used by the witness and counterexample theorems. -/
def bl1 : List (String × String) := [("en", "Ant"), ("fr", "Chat")]

def tbl1 : List Record := [⟨0, "en", "Chat", 5⟩]

def tbl2 : List Record := [⟨0, "en", "B", 50⟩, ⟨1, "en", "A", 50⟩, ⟨2, "en", "C", 50⟩]

def rows9 : List (String × String × Int) := [("en", "B", 10), ("en", "A", 50)]

def cfg0 : Config := ⟨"res", "out", "blorigin", "blpath", false⟩

def net0 : String → Option Content := fun u =>
  if u = archive_base ++ "U" then some (Content.table3 [("en", "Cat", 50)])
  else if u = "blorigin" then some (Content.table2 [("fr", "X")]) else none

/-- C1: the blacklist step does not implement exact (domain, title) pair
matching.  At the concrete input `tbl1` = [(en, Chat, 5)] with blacklist
`bl1` = [(en, Ant), (fr, Chat)], the record's domain matches the first
entry while its title matches only the second, yet the code's
column-independent isin mask excludes it — the filtered table is empty —
whereas the exact-pair filter described by the spec retains it. -/
theorem c1_blacklist_cross_match :
    blacklistFilter bl1 tbl1 = [] ∧ pair_blacklist_filter bl1 tbl1 = tbl1 :=
  ⟨rfl, rfl⟩

/-- C2 counterexample: for the bucket of domain `en` built from `tbl2`
(three records, all with count 50, titles B, A, C in file order), the
code's sort (count only, ascending argsort reversed) outputs titles
C, A, B — record A (index 1 of the bucket) has the same count as record C
(index 0) and the lexicographically smaller title, yet does not precede
it, so the claimed tie-break by title ascending is violated. -/
theorem c2_tie_break_counterexample :
    rank_table [] tbl2
        = [("en", [⟨2, "en", "C", 50⟩, ⟨1, "en", "A", 50⟩, ⟨0, "en", "B", 50⟩])]
      ∧ ¬ tieTitleOrdered [⟨2, "en", "C", 50⟩, ⟨1, "en", "A", 50⟩, ⟨0, "en", "B", 50⟩] :=
  ⟨rfl, by decide⟩

/-- C5: `get_table_from_resource` on an undecodable resource file returns
Python `None` (here: `none`) — its return type has no error channel, so no
`ParseError` reaches the caller; the pipeline then fails only later, when
`blacklist` subscripts `None` and raises a `TypeError` that carries no
file path.  Both behaviours are evaluated at a corrupt file. -/
theorem c5_parse_failure_swallowed :
    get_table_from_resource ⟨[("res/pagecounts-A.gz", Content.corrupt)], 0⟩ "res/pagecounts-A.gz"
        = none
      ∧ blacklist cfg0 (fun _ => some (Content.table2 []))
          (get_table_from_resource ⟨[("res/pagecounts-A.gz", Content.corrupt)], 0⟩
            "res/pagecounts-A.gz")
          ⟨[("res/pagecounts-A.gz", Content.corrupt)], 0⟩
        = (⟨[("blpath", Content.table2 []), ("res/pagecounts-A.gz", Content.corrupt)], 1⟩,
           Except.error Err.typeError) :=
  ⟨rfl, rfl⟩

/-- C6: the per-date loop has no exception handler, so a download failure
while processing the first requested hour aborts the whole batch.  With a
network that fails every call and the two dates A and B, the run stops at
the first date's `DownloadError`; afterwards neither the output file nor
the resource file of date B exists — B was never processed, contradicting
the claimed log-and-continue policy. -/
theorem c6_batch_aborts :
    hourly_ranking cfg0 (fun _ => none) id id ⟨[], 0⟩ ["A", "B"]
        = (⟨[("res/pagecounts-A.gz", Content.corrupt)], 1⟩,
           some (Err.downloadError "http://dumps.wikimedia.org/other/pagecounts-all-sites/A"))
      ∧ List.lookup (out_path cfg0 "B") [("res/pagecounts-A.gz", Content.corrupt)] = none
      ∧ List.lookup (res_path cfg0 "B") [("res/pagecounts-A.gz", Content.corrupt)] = none :=
  ⟨rfl, rfl, rfl⟩

/-- C7: when the local file already exists, `download_file` takes the
logging branch: the returned state is exactly the input state — no file is
touched and the network-call counter (which counts every `requests.get`)
is unchanged, i.e. zero network calls are performed. -/
theorem c7_cache_hit (net : String → Option Content) (url file_path : String) (st : PState)
    (h : (st.fs.lookup file_path).isSome = true) :
    download_file net url file_path st = (st, Except.ok ()) := by
  unfold download_file
  rw [if_pos h]

/-- Witness for C7: a state that already holds the file "p"; the fetch
returns it unchanged with no error. -/
theorem c7_cache_hit_witness :
    download_file (fun _ => none) "u" "p" ⟨[("p", Content.corrupt)], 0⟩
      = (⟨[("p", Content.corrupt)], 0⟩, Except.ok ()) :=
  c7_cache_hit (fun _ => none) "u" "p" ⟨[("p", Content.corrupt)], 0⟩ (by decide)

theorem str_data_append (a b : String) : (a ++ b).data = a.data ++ b.data := rfl

theorem dropExact_self_append (ps rest : List Char) : dropExact ps (ps ++ rest) = some rest := by
  induction ps with
  | nil => rfl
  | cons p ps ih => simpa [dropExact] using ih

theorem digit_prop : ∀ n, n < 10 → (digit n).isDigit = true ∧ digitVal (digit n) = n := by
  decide

theorem read2_pad (n : Nat) (h : n < 100) (rest : List Char) :
    read2 ((pad2 n).data ++ rest) = some (n, rest) := by
  have h1 := digit_prop (n / 10) (by omega)
  have h2 := digit_prop (n % 10) (by omega)
  have hn : digitVal (digit (n / 10)) * 10 + digitVal (digit (n % 10)) = n := by
    rw [h1.2, h2.2]; omega
  show read2 (digit (n / 10) :: digit (n % 10) :: rest) = some (n, rest)
  simp only [read2]
  rw [if_pos ⟨h1.1, h2.1⟩, hn]

theorem read4_pad (n : Nat) (h : n < 10000) (rest : List Char) :
    read4 ((pad4 n).data ++ rest) = some (n, rest) := by
  have hsplit : (pad4 n).data ++ rest
      = (pad2 (n / 100)).data ++ ((pad2 (n % 100)).data ++ rest) := by
    simp [pad4, str_data_append, List.append_assoc]
  have hn : n / 100 * 100 + n % 100 = n := by omega
  unfold read4
  rw [hsplit]
  simp only [read2_pad (n / 100) (by omega : n / 100 < 100), Option.bind_eq_bind',
    Option.some_bind]
  simp only [read2_pad (n % 100) (by omega : n % 100 < 100), Option.bind_eq_bind',
    Option.some_bind]
  rw [hn]

theorem parse_window_name_roundtrip (pre suf : String) (w : HourlyWindow)
    (hy : w.year < 10000) (hm : w.month < 100) (hdd : w.day < 100) (hh : w.hour < 100) :
    parse_window_name pre suf (pre ++ window_core w ++ suf) = some w := by
  have hdash : ("-" : String).data = ['-'] := rfl
  have hs : (pre ++ window_core w ++ suf).data
      = pre.data ++ ((pad4 w.year).data ++ ((pad2 w.month).data ++ ((pad2 w.day).data
          ++ (['-'] ++ ((pad2 w.hour).data ++ (("0000" ++ suf).data ++ ([] : List Char))))))) := by
    simp [window_core, str_data_append, List.append_assoc, hdash]
  unfold parse_window_name
  rw [hs, dropExact_self_append]
  simp only [Option.bind_eq_bind', Option.some_bind]
  simp only [read4_pad w.year hy, Option.bind_eq_bind', Option.some_bind]
  simp only [read2_pad w.month hm, Option.bind_eq_bind', Option.some_bind]
  simp only [read2_pad w.day hdd, Option.bind_eq_bind', Option.some_bind]
  simp only [dropExact_self_append, Option.bind_eq_bind', Option.some_bind]
  simp only [read2_pad w.hour hh, Option.bind_eq_bind', Option.some_bind]
  simp only [dropExact_self_append, Option.bind_eq_bind', Option.some_bind]
  rfl

/-- C8: for every hourly window with the field bounds Python's `datetime`
enforces (year at most 9999, month at most 12, day at most 31, hour at
most 23), parsing the resource file name and the output file name
generated from the window recovers its year, month, day and hour exactly. -/
theorem c8_name_roundtrip (w : HourlyWindow) (hy : w.year ≤ 9999) (hm : w.month ≤ 12)
    (hdd : w.day ≤ 31) (hh : w.hour ≤ 23) :
    parse_resource_name (get_resource_name w) = some w
      ∧ parse_output_name (output_file_name w) = some w := by
  constructor
  · show parse_window_name "pagecounts-" ".gz" ("pagecounts-" ++ window_core w ++ ".gz") = some w
    exact parse_window_name_roundtrip "pagecounts-" ".gz" w (by omega) (by omega) (by omega)
      (by omega)
  · show parse_window_name "ranking-" ".csv" ("ranking-" ++ window_core w ++ ".csv") = some w
    exact parse_window_name_roundtrip "ranking-" ".csv" w (by omega) (by omega) (by omega)
      (by omega)

/-- Witness for C8 at the window 2024-01-01T03. -/
theorem c8_name_roundtrip_witness :
    parse_resource_name (get_resource_name ⟨2024, 1, 1, 3⟩) = some ⟨2024, 1, 1, 3⟩
      ∧ parse_output_name (output_file_name ⟨2024, 1, 1, 3⟩) = some ⟨2024, 1, 1, 3⟩ :=
  c8_name_roundtrip ⟨2024, 1, 1, 3⟩ (by decide) (by decide) (by decide) (by decide)

/-- C4: every domain bucket of the ranking output is truncated to at most
25 rows (`group[:25]`). -/
theorem c4_top25_bound (bl : List (String × String)) (table : List Record)
    (dn : String) (bucket : List Record) (hmem : (dn, bucket) ∈ rank_table bl table) :
    bucket.length ≤ 25 := by
  simp only [rank_table, rank_groups] at hmem
  rcases List.mem_map.1 hmem with ⟨p, -, heq⟩
  have hb : bucket = (sortCountDesc p.2).take 25 := (congrArg Prod.snd heq).symm
  rw [hb, List.length_take]
  exact min_le_left _ _

/-- Witness for C4: the single bucket built from `tbl2` has 3 ≤ 25 rows. -/
theorem c4_top25_bound_witness :
    ([⟨2, "en", "C", 50⟩, ⟨1, "en", "A", 50⟩, ⟨0, "en", "B", 50⟩] : List Record).length ≤ 25 :=
  c4_top25_bound [] tbl2 "en" [⟨2, "en", "C", 50⟩, ⟨1, "en", "A", 50⟩, ⟨0, "en", "B", 50⟩]
    (by decide)

theorem rank_bucket_sorted (bl : List (String × String)) (table : List Record)
    (dn : String) (bucket : List Record) (hmem : (dn, bucket) ∈ rank_table bl table) :
    bucket.Pairwise fun a b => b.count ≤ a.count := by
  simp only [rank_table, rank_groups] at hmem
  rcases List.mem_map.1 hmem with ⟨p, -, heq⟩
  have hb : bucket = (sortCountDesc p.2).take 25 := (congrArg Prod.snd heq).symm
  have hs : (List.insertionSort countLe p.2).Sorted countLe :=
    List.sorted_insertionSort countLe p.2
  have hrev : (sortCountDesc p.2).Pairwise fun a b => b.count ≤ a.count := by
    unfold sortCountDesc
    exact List.pairwise_reverse.2 hs
  rw [hb]
  exact hrev.sublist (List.take_sublist 25 _)

/-- C2 amended: within every domain bucket of the ranking output, a
strictly greater count means an earlier position — the part of the claimed
ordering that the count-only sort actually guarantees.  (The tie-break by
title is refuted by the counterexample theorem.) -/
theorem c2_count_order (bl : List (String × String)) (table : List Record)
    (dn : String) (bucket : List Record) (hmem : (dn, bucket) ∈ rank_table bl table)
    (i j : Nat) (hi : i < bucket.length) (hj : j < bucket.length)
    (hgt : (bucket.get ⟨j, hj⟩).count < (bucket.get ⟨i, hi⟩).count) :
    i < j := by
  have hp := rank_bucket_sorted bl table dn bucket hmem
  by_contra hnot
  have hji : j ≤ i := Nat.le_of_not_lt hnot
  rcases Nat.eq_or_lt_of_le hji with heq | hlt
  · subst heq
    exact lt_irrefl _ hgt
  · have hle := List.pairwise_iff_get.1 hp ⟨j, hj⟩ ⟨i, hi⟩ hlt
    exact absurd hgt (not_lt.2 hle)

/-- Witness for C2's amended theorem: in the bucket built from `rows9`,
the count-50 record occupies position 0, before the count-10 record. -/
theorem c2_count_order_witness :
    ("en", ([⟨1, "en", "A", 50⟩, ⟨0, "en", "B", 10⟩] : List Record))
        ∈ rank_table [] (records_of_rows rows9)
      ∧ (0 : Nat) < 1 :=
  ⟨by decide,
   c2_count_order [] (records_of_rows rows9) "en" [⟨1, "en", "A", 50⟩, ⟨0, "en", "B", 10⟩]
     (by decide) 0 1 (by decide) (by decide) (by decide)⟩

/-- C9 counterexample: for the parsed file `rows9` = [(en, B, 10),
(en, A, 50)], the Plain output annotates the top row of the bucket with 1
(its original dataframe index) and the second with 0, while the layout the
claim describes (rank position within the bucket) would annotate them 0
and 1; the two outputs differ. -/
theorem c9_rank_annotation_counterexample :
    plain_output (blacklistFilter [] (records_of_rows rows9))
        = ["Original_index Domain Title Count", "1 en A 50", "0 en B 10"]
      ∧ plain_output_rank (blacklistFilter [] (records_of_rows rows9))
        = ["Original_index Domain Title Count", "0 en A 50", "1 en B 10"]
      ∧ plain_output (blacklistFilter [] (records_of_rows rows9))
        ≠ plain_output_rank (blacklistFilter [] (records_of_rows rows9)) :=
  ⟨rfl, rfl, by decide⟩

theorem download_file_fs (net : String → Option Content) (url file_path : String) (st : PState) :
    (download_file net url file_path st).1.fs = st.fs
      ∨ ∃ c, (download_file net url file_path st).1.fs = (file_path, c) :: st.fs := by
  unfold download_file
  split
  · exact Or.inl rfl
  · split
    · exact Or.inr ⟨_, rfl⟩
    · exact Or.inr ⟨_, rfl⟩

theorem blacklist_fs (cfg : Config) (net : String → Option Content)
    (table : Option (List Record)) (st : PState) :
    (blacklist cfg net table st).1.fs = st.fs
      ∨ ∃ c, (blacklist cfg net table st).1.fs = (cfg.blacklist_path, c) :: st.fs := by
  have hd := download_file_fs net cfg.blacklist_origin cfg.blacklist_path st
  unfold blacklist
  split
  next st1 e heq =>
    rw [heq] at hd
    exact hd
  next st1 u heq =>
    rw [heq] at hd
    split <;> try split
    all_goals exact hd

/-- C3: the idempotency gate of the per-hour body.  First part: when the
output file for the window already exists, the body returns the input
state unchanged — the filesystem and the network-call counter are exactly
the input ones, so no fetch, parse, rank or write work is observable — and
reports the already-exists branch (the code's "already present, exiting"
log).  Second part: when the output file is absent and the body completes,
the final filesystem is exactly one new output-file entry on top of an
intermediate state whose only new paths are the cached resource file and
the cached blacklist file — exactly one new output file is created. -/
theorem c3_idempotency {D : Type} (cfg : Config) (net : String → Option Content)
    (fmtCore fmtUrl : D → String) (st : PState) (d : D) :
    ((st.fs.lookup (out_path cfg (fmtCore d))).isSome = true →
        processHour cfg net fmtCore fmtUrl st d = (st, Except.ok Outcome.alreadyExists))
      ∧ (∀ st2 , st.fs.lookup (out_path cfg (fmtCore d)) = none →
          processHour cfg net fmtCore fmtUrl st d = (st2, Except.ok Outcome.written) →
          ∃ ls mid , st2.fs = (out_path cfg (fmtCore d), Content.text ls) :: mid
            ∧ ∀ q, q ∈ mid.map Prod.fst →
                q ∈ st.fs.map Prod.fst ∨ q = res_path cfg (fmtCore d)
                  ∨ q = cfg.blacklist_path) := by
  constructor
  · intro h
    unfold processHour
    rw [if_pos h]
  · intro st2 hnone hrun
    unfold processHour at hrun
    rw [hnone] at hrun
    simp only [Option.isSome_none, Bool.false_eq_true, if_false] at hrun
    split at hrun
    next st1 e heq1 => simp at hrun
    next st1 u heq1 =>
      split at hrun
      next stB e heq2 => simp at hrun
      next stB tbl heq2 =>
        injection hrun with h1 h2
        have hB := blacklist_fs cfg net
          (get_table_from_resource st1 (res_path cfg (fmtCore d))) st1
        rw [heq2] at hB
        have hB2 : stB.fs = st1.fs ∨ ∃ c, stB.fs = (cfg.blacklist_path, c) :: st1.fs := hB
        have hD := download_file_fs net (archive_base ++ fmtUrl d)
          (res_path cfg (fmtCore d)) st
        unfold get_resource at heq1
        rw [heq1] at hD
        have hD2 : st1.fs = st.fs ∨ ∃ c2, st1.fs = (res_path cfg (fmtCore d), c2) :: st.fs := hD
        refine ⟨if cfg.fancy_formatting then fancy_output tbl else plain_output tbl,
          stB.fs, ?_, ?_⟩
        · rw [← h1]
        · intro q hq
          rcases hB2 with hB2 | ⟨c, hB2⟩ <;> rcases hD2 with hD2 | ⟨c2, hD2⟩ <;>
            simp only [hB2, hD2, List.map_cons, List.mem_cons] at hq <;> tauto

/-- Witness for C3: part one applied to a state already holding the output
file of date E, part two applied to a complete successful run for date U
(the network serves a one-row resource table and a one-row blacklist). -/
theorem c3_idempotency_witness :
    processHour cfg0 net0 id id ⟨[("out/ranking-E.csv", Content.text [])], 0⟩ "E"
        = (⟨[("out/ranking-E.csv", Content.text [])], 0⟩, Except.ok Outcome.alreadyExists)
      ∧ ∃ ls mid ,
          ([("out/ranking-U.csv",
              Content.text ["Original_index Domain Title Count", "0 en Cat 50"]),
            ("blpath", Content.table2 [("fr", "X")]),
            ("res/pagecounts-U.gz", Content.table3 [("en", "Cat", 50)])]
              : List (String × Content))
            = (out_path cfg0 (id "U"), Content.text ls) :: mid
          ∧ ∀ q, q ∈ mid.map Prod.fst →
              q ∈ (([] : List (String × Content)).map Prod.fst) ∨ q = res_path cfg0 (id "U")
                ∨ q = cfg0.blacklist_path :=
  ⟨(c3_idempotency cfg0 net0 id id ⟨[("out/ranking-E.csv", Content.text [])], 0⟩ "E").1
      (by decide),
   (c3_idempotency cfg0 net0 id id ⟨[], 0⟩ "U").2
      ⟨[("out/ranking-U.csv",
          Content.text ["Original_index Domain Title Count", "0 en Cat 50"]),
        ("blpath", Content.table2 [("fr", "X")]),
        ("res/pagecounts-U.gz", Content.table3 [("en", "Cat", 50)])], 2⟩
      rfl rfl⟩

theorem enum_mem_get {α : Type} (rows : List α) (q : Nat × α) (hq : q ∈ rows.enum) :
    ∃ hi : q.1 < rows.length, rows.get ⟨q.1, hi⟩ = q.2 := by
  have h1 := List.mk_mem_enum_iff_getElem?.1 hq
  rcases List.getElem?_eq_some.1 h1 with ⟨hi, hget⟩
  exact ⟨hi, hget⟩

/-- C9 amended: in the Plain layout, after the single header line, every
written row renders some row i of the parsed file and is annotated with
exactly that i — the record's 0-based position in the parsed input table
(the dataframe's original index, as the header `Original_index` names
it) — followed by domain, title and count.  It is not the rank position
(refuted by the counterexample theorem). -/
theorem c9_original_index (bl : List (String × String)) (rows : List (String × String × Int))
    (line : String)
    (h : line ∈ (plain_output (blacklistFilter bl (records_of_rows rows))).tail) :
    ∃ i, ∃ hi : i < rows.length,
      line = row_line ⟨i, (rows.get ⟨i, hi⟩).1, (rows.get ⟨i, hi⟩).2.1,
        (rows.get ⟨i, hi⟩).2.2⟩ := by
  simp only [plain_output, List.tail_cons] at h
  rcases List.mem_flatMap.1 h with ⟨p, hp, hline⟩
  rcases List.mem_map.1 hline with ⟨r, hr, hlr⟩
  simp only [rank_groups] at hp
  rcases List.mem_map.1 hp with ⟨g, hg, hgp⟩
  have hp2 : p.2 = (sortCountDesc g.2).take 25 := (congrArg Prod.snd hgp).symm
  rw [hp2] at hr
  have hr2 : r ∈ sortCountDesc g.2 := List.mem_of_mem_take hr
  have hr3 : r ∈ List.insertionSort countLe g.2 := by
    unfold sortCountDesc at hr2
    exact List.mem_reverse.1 hr2
  have hr4 : r ∈ g.2 := (List.perm_insertionSort countLe g.2).mem_iff.1 hr3
  simp only [split_by_domain] at hg
  rcases List.mem_map.1 hg with ⟨dnm, -, hdg⟩
  have hg2 : g.2
      = (blacklistFilter bl (records_of_rows rows)).filter fun x => x.domain == dnm :=
    (congrArg Prod.snd hdg).symm
  rw [hg2] at hr4
  have hr5 : r ∈ blacklistFilter bl (records_of_rows rows) := (List.mem_filter.1 hr4).1
  have hr6 : r ∈ records_of_rows rows := by
    simp only [blacklistFilter] at hr5
    exact (List.mem_filter.1 hr5).1
  simp only [records_of_rows] at hr6
  rcases List.mem_map.1 hr6 with ⟨q, hq, hqr⟩
  rcases enum_mem_get rows q hq with ⟨hi, hget⟩
  refine ⟨q.1, hi, ?_⟩
  rw [← hlr, ← hqr, hget]

/-- Witness for C9's amended theorem at the body line "1 en A 50". -/
theorem c9_original_index_witness :
    "1 en A 50" ∈ (plain_output (blacklistFilter [] (records_of_rows rows9))).tail
      ∧ ∃ i, ∃ hi : i < rows9.length,
          "1 en A 50" = row_line ⟨i, (rows9.get ⟨i, hi⟩).1, (rows9.get ⟨i, hi⟩).2.1,
            (rows9.get ⟨i, hi⟩).2.2⟩ :=
  ⟨by decide, c9_original_index [] rows9 "1 en A 50" (by decide)⟩

/-- C10: when `hourly_ranking` is invoked with `dates=None`, it processes
exactly one window — the singleton list whose sole element is the current
wall-clock time minus two hours, truncated to the hour and shifted by the
configured timezone offset (on the minutes-since-epoch datetime model). -/
theorem c10_default_window (local_timezone now : Int) :
    hourly_windows local_timezone now none
      = [truncToHour (now - 120) - 60 * local_timezone] := by
  simp only [hourly_windows, default_dates, List.map_cons, List.map_nil, floor_date, truncToHour]
  congr 1
  omega

end WikiAnalytics
